import Mathlib

/-!
Verification of the Promptly two-agent email/calendar application.

Agent B (calendar scheduler): shallow embedding of
`agent-b-calendar/src/controllers/calendarController.ts` and
`agent-b-calendar/src/services/calendarService.ts`.

Agent A (email processor): shallow embedding of the `processInbox`
controller, `middleware/validation.middleware.ts` and the
`validateDate` normalization from `services/aiService.ts`.

Conventions of the embedding:
* JavaScript `string | undefined` fields are `Option String`; the JS
  truthiness test `x || default` on strings treats the empty string as
  falsy, captured by `strOr`.
* Instants (millisecond timestamps) are `Int`; `Date.toISOString()` is
  modelled by the injective rendering `isoStr`.  Within one request the
  several `Date.now()` reads are modelled by a single `now` parameter.
* Calls to external collaborators (Google calendar client, Gmail, the
  LLM, the credential provider, Agent B's HTTP endpoint) are oracle
  parameters: a function giving the call's outcome, `Except` for calls
  that may throw.  Each embedded handler additionally returns the list
  of downstream calls it issued, so "no call is made" is a provable
  statement.
* An `AppError` thrown by a controller reaches the express error
  handler (`middleware/errorHandler.ts`), which responds with the
  error's status and code; this is the `err status code` outcome.
-/

namespace Promptly

/-- Does `sub` occur as a contiguous run of `l`? -/
def charsContain (sub : List Char) : List Char → Bool
  | [] => sub.isEmpty
  | c :: rest => sub.isPrefixOf (c :: rest) || charsContain sub rest

/-- JS `s.includes(sub)` substring test, on the underlying char lists. -/
def strContains (s sub : String) : Bool :=
  charsContain sub.data s.data

/-- JS `x || d` for a `string | undefined` value `x`: `undefined` and
the empty string are falsy and yield the default. -/
def strOr (x : Option String) (d : String) : String :=
  match x with
  | none => d
  | some s => if s = "" then d else s

/-- Abstract, injective model of `Date.toISOString()` applied to the
instant `t` (milliseconds since the epoch). -/
def isoStr (t : Int) : String :=
  "ISO(" ++ toString t ++ ")"

/-- A value thrown by a JS call: whether it is an `Error` instance, and
its `message` (JS code checks `error instanceof Error` before reading
`error.message`). -/
structure JsError where
  isError : Bool
  msg : String
deriving DecidableEq, Repr

namespace AgentB

/-- One reminder override (`{method, minutes}`). -/
structure ReminderOverride where
  method : String
  minutes : Nat
deriving DecidableEq, Repr

/-- The `reminders` object of an event. -/
structure Reminders where
  useDefault : Bool
  overrides : List ReminderOverride
deriving DecidableEq, Repr

/-- One raw item of the `events` array of a `POST /api/create-events`
body, as seen by `enhanceEventData` (every field may be absent). -/
structure EventInput where
  title : Option String
  description : Option String
  startTime : Option String
  endTime : Option String
  attendees : Option (List String)
  location : Option String
  reminders : Option Reminders
deriving DecidableEq, Repr

/-- The normalized `CreateEventRequest` produced by `enhanceEventData`
and passed to `calendarService.createEvent`. -/
structure CreateEventRequest where
  title : String
  description : String
  startTime : String
  endTime : String
  attendees : List String
  location : String
  reminders : Reminders
deriving DecidableEq, Repr

/-- A `CalendarEvent` (shared type), as returned by the calendar
service. -/
structure CalendarEvent where
  id : String
  title : String
  description : Option String
  startTime : String
  endTime : String
  attendees : Option (List String)
  location : Option String
  htmlLink : Option String
  status : String
deriving DecidableEq, Repr

/-- `userInfo?.scopes?.includes(s)`: the optional chain is falsy when
`userInfo` or its `scopes` is absent, `Array.includes` is exact string
membership. -/
def hasScope (scopes : Option (List String)) (s : String) : Bool :=
  match scopes with
  | none => false
  | some l => l.contains s

/-- `enhanceEventData` (calendarController.ts lines 310-336): fill in
defaults for a raw event.  `defaultStartTime` is one hour from `now`,
`defaultEndTime` one hour later; string fields use JS `||` defaulting;
a non-array `attendees` becomes `[]` and attendee strings must contain
`"@"` (non-string array entries, also dropped by the source's `typeof`
check, are outside this model). -/
def enhanceEventData (now : Int) (e : EventInput) : CreateEventRequest :=
  let defaultStartTime := now + 60 * 60 * 1000
  let defaultEndTime := defaultStartTime + 60 * 60 * 1000
  { title := strOr e.title "Untitled Event"
    description := strOr e.description ""
    startTime := strOr e.startTime (isoStr defaultStartTime)
    endTime := strOr e.endTime (isoStr defaultEndTime)
    attendees :=
      match e.attendees with
      | some l => l.filter (fun s => strContains s "@")
      | none => []
    location := strOr e.location ""
    reminders := e.reminders.getD ⟨false, [⟨"email", 24 * 60⟩, ⟨"popup", 15⟩]⟩ }

/-- A per-item entry of the controller's `errors` array:
`{event: eventData, error: message}`. -/
structure ErrorItem where
  event : EventInput
  error : String
deriving DecidableEq, Repr

/-- Accumulated results of the per-event loop of `createEvents`
(lines 54-85): events created, per-item errors, and the
`calendarService.createEvent` calls issued (in iteration order). -/
structure DraftResults where
  created : List CalendarEvent
  errors : List ErrorItem
  calls : List CreateEventRequest
deriving DecidableEq, Repr

/-- The `for` loop of `createEvents` (lines 58-85): each event is
enhanced, then `calendarService.createEvent` (the oracle `create`) is
called; a success is appended to `createdEvents`, a thrown error's
message to `errors`; a failure never stops the loop. -/
def processDrafts (create : CreateEventRequest → Except String CalendarEvent)
    (now : Int) : List EventInput → DraftResults
  | [] => ⟨[], [], []⟩
  | d :: rest =>
    let enhanced := enhanceEventData now d
    let r := processDrafts create now rest
    match create enhanced with
    | .ok e => ⟨e :: r.created, r.errors, enhanced :: r.calls⟩
    | .error m => ⟨r.created, ⟨d, m⟩ :: r.errors, enhanced :: r.calls⟩

/-- Outcome of the `createEvents` controller, as seen on the wire:
`okEmpty` is the early `res.json` for an empty batch (status 200, data
`{created: []}`); `err` is an `AppError` surfaced by the error handler;
`okBatch` is the final `res.status(status).json` with the batch
response body. -/
inductive CEOutcome where
  | okEmpty : CEOutcome
  | err (status : Nat) (code : String) : CEOutcome
  | okBatch (status : Nat) (created : List CalendarEvent)
      (totalRequested totalCreated : Nat)
      (errors : Option (List ErrorItem)) : CEOutcome
deriving DecidableEq, Repr

/-- HTTP status of a `createEvents` outcome (`res.json` defaults to
200). -/
def CEOutcome.status : CEOutcome → Nat
  | .okEmpty => 200
  | .err s _ => s
  | .okBatch s _ _ _ _ => s

/-- The `created` list of the response body (`[]` for error outcomes,
which carry no such field). -/
def CEOutcome.createdList : CEOutcome → List CalendarEvent
  | .okEmpty => []
  | .err _ _ => []
  | .okBatch _ c _ _ _ => c

/-- Number of created events reported by a batch outcome. -/
def CEOutcome.createdCount : CEOutcome → Nat
  | .okBatch _ c _ _ _ => c.length
  | _ => 0

/-- Length of the `errors` array of a batch outcome (`undefined`
counts as 0). -/
def CEOutcome.errCount : CEOutcome → Nat
  | .okBatch _ _ _ _ (some es) => es.length
  | _ => 0

/-- The `totalRequested` field of a batch outcome. -/
def CEOutcome.totalReq : CEOutcome → Nat
  | .okBatch _ _ n _ _ => n
  | _ => 0

/-- The response assembly of `createEvents` (lines 88-101): the status
is 207 iff there is at least one error and no created event, else 200;
`errors` is omitted (`undefined`) when empty. -/
def batchOutcome (totalRequested : Nat) (r : DraftResults) : CEOutcome :=
  .okBatch (if 0 < r.errors.length ∧ r.created.length = 0 then 207 else 200)
    r.created totalRequested r.created.length
    (if 0 < r.errors.length then some r.errors else none)

/-- The `createEvents` controller (calendarController.ts lines 8-111).
`body` is the result of `validateCreateEventsRequest req.body` (that
Joi middleware is not among the sources; its outcome is a parameter):
a validation error yields a 400 `VALIDATION_ERROR`.  An empty batch
returns 200 `{created: []}` before the scope check.  A caller without
the `calendar.write` scope gets a 403 `INSUFFICIENT_SCOPE`.  Otherwise
the per-event loop runs and the response is assembled by
`batchOutcome`.  The second component is the list of
`calendarService.createEvent` calls issued. -/
def createEvents (scopes : Option (List String))
    (body : Except String (List EventInput))
    (create : CreateEventRequest → Except String CalendarEvent)
    (now : Int) : CEOutcome × List CreateEventRequest :=
  match body with
  | .error _ => (.err 400 "VALIDATION_ERROR", [])
  | .ok events =>
    if events.length = 0 then
      (.okEmpty, [])
    else if hasScope scopes "calendar.write" = false then
      (.err 403 "INSUFFICIENT_SCOPE", [])
    else
      (batchOutcome events.length (processDrafts create now events),
        (processDrafts create now events).calls)

/-- The data carried by an `AppError` (utils/errors.ts). -/
structure AppErr where
  message : String
  status : Nat
  code : String
deriving DecidableEq, Repr

/-- `calendarService.deleteEvent` (calendarService.ts lines 273-303).
`configured` is whether a real calendar client exists; `provider` is
the outcome of `calendar.events.delete`.  Without a client the mock
path returns `true`.  A thrown provider error whose message contains
`"Not Found"` yields `false`; any other thrown value becomes an
`AppError` 500 `CALENDAR_DELETE_FAILED`. -/
def svcDeleteEvent (configured : Bool) (provider : Except JsError Unit) :
    Except AppErr Bool :=
  if configured = false then .ok true
  else
    match provider with
    | .ok _ => .ok true
    | .error e =>
      if e.isError && strContains e.msg "Not Found" then .ok false
      else .error ⟨"Failed to delete calendar event", 500, "CALENDAR_DELETE_FAILED"⟩

/-- `getMockEvent` (calendarService.ts lines 374-388): a deterministic
mock event for `eventId`, starting 24h from `now` and lasting one
hour. -/
def getMockEvent (now : Int) (eventId : String) : CalendarEvent :=
  let startTime := now + 24 * 60 * 60 * 1000
  let endTime := startTime + 60 * 60 * 1000
  { id := eventId
    title := "Mock Event: " ++ eventId
    description := some "This is a mock calendar event for demonstration purposes."
    startTime := isoStr startTime
    endTime := isoStr endTime
    attendees := none
    location := none
    htmlLink := some ("https://calendar.google.com/calendar/event?eid=" ++ eventId)
    status := "confirmed" }

/-- `calendarService.getEvent` (calendarService.ts lines 163-199).
`provider` is the outcome of `calendar.events.get` followed by
`mapToCalendarEvent` (only reached on the configured path; `.ok none`
is an empty `response.data`).  Without a client the mock event is
returned; a thrown `"Not Found"` error yields `null`; any other error
falls back to the mock event. -/
def svcGetEvent (configured : Bool) (now : Int) (eventId : String)
    (provider : Except JsError (Option CalendarEvent)) : Option CalendarEvent :=
  if configured = false then some (getMockEvent now eventId)
  else
    match provider with
    | .ok none => none
    | .ok (some ev) => some ev
    | .error e =>
      if e.isError && strContains e.msg "Not Found" then none
      else some (getMockEvent now eventId)

/-- Outcome of the single-event controllers: the success `res.json`
(status 200) carrying an event or a deletion acknowledgement, or an
`AppError` surfaced by the error handler. -/
inductive CtrlOutcome where
  | okEvent (e : CalendarEvent) : CtrlOutcome
  | okDeleted (eventId : String) : CtrlOutcome
  | err (status : Nat) (code : String) : CtrlOutcome
deriving DecidableEq, Repr

/-- The `getEvent` controller (calendarController.ts lines 164-205):
missing id → 400, missing `calendar.read` scope → 403, a `null`
service result → 404 `EVENT_NOT_FOUND`, else 200 with the event. -/
def ctrlGetEvent (scopes : Option (List String)) (eventId : String)
    (configured : Bool) (now : Int)
    (provider : Except JsError (Option CalendarEvent)) : CtrlOutcome :=
  if eventId = "" then .err 400 "MISSING_EVENT_ID"
  else if hasScope scopes "calendar.read" = false then .err 403 "INSUFFICIENT_SCOPE"
  else
    match svcGetEvent configured now eventId provider with
    | none => .err 404 "EVENT_NOT_FOUND"
    | some ev => .okEvent ev

/-- The `deleteEvent` controller (calendarController.ts lines 260-307):
missing id → 400, missing `calendar.write` scope → 403, a service
`false` → 404 `EVENT_DELETE_FAILED`, a service `AppError` propagates,
else 200 `{deleted: true, eventId}`. -/
def ctrlDeleteEvent (scopes : Option (List String)) (eventId : String)
    (configured : Bool) (provider : Except JsError Unit) : CtrlOutcome :=
  if eventId = "" then .err 400 "MISSING_EVENT_ID"
  else if hasScope scopes "calendar.write" = false then .err 403 "INSUFFICIENT_SCOPE"
  else
    match svcDeleteEvent configured provider with
    | .error a => .err a.status a.code
    | .ok false => .err 404 "EVENT_DELETE_FAILED"
    | .ok true => .okDeleted eventId

/-- Concrete batch item used to evaluate the theorems: an event titled
"A". -/
def sampleEventA : EventInput :=
  ⟨some "A", none, none, none, none, none, none⟩

/-- Concrete batch item used to evaluate the theorems: an event titled
"B". -/
def sampleEventB : EventInput :=
  ⟨some "B", none, none, none, none, none, none⟩

/-- A concrete gateway result for a request. -/
def sampleEvent (r : CreateEventRequest) : CalendarEvent :=
  ⟨"mock_1", r.title, some r.description, r.startTime, r.endTime,
    some r.attendees, some r.location, none, "confirmed"⟩

/-- A concrete `calendarService.createEvent` oracle: fails (throws
"boom") exactly on events titled "B". -/
def sampleCreate (r : CreateEventRequest) : Except String CalendarEvent :=
  if r.title = "B" then .error "boom" else .ok (sampleEvent r)

end AgentB

namespace AgentA

/-- `validateProcessEmailsRequest` (validation.middleware.ts lines
3-9): Joi schema `maxResults: number().integer().min(1).max(50)
.default(5)`.  The body field is modelled as an optional rational
(JS numbers restricted to the values the claim is about); an absent
field yields the default 5, a non-integer or out-of-range value yields
a validation error. -/
def validateProcessEmailsRequest (maxResults : Option Rat) : Except String Nat :=
  match maxResults with
  | none => .ok 5
  | some q =>
    if q.den ≠ 1 then .error "maxResults must be an integer"
    else if q.num < 1 then .error "maxResults must be greater than or equal to 1"
    else if 50 < q.num then .error "maxResults must be less than or equal to 50"
    else .ok q.num.toNat

/-- JS `str.replace(pat, "")`: drop the first occurrence of `pat`, if
any. -/
def dropFirstOccurrence (pat : List Char) : List Char → List Char
  | [] => []
  | c :: rest =>
    if pat.isPrefixOf (c :: rest) then (c :: rest).drop pat.length
    else c :: dropFirstOccurrence pat rest

/-- `req.headers.authorization?.replace("Bearer ", "")` followed by the
truthiness check of `processInbox` line 34: an absent header, or one
that is empty after stripping, yields no session token. -/
def bearerToken (authHeader : Option String) : Option String :=
  match authHeader with
  | none => none
  | some s =>
    let t := String.mk (dropFirstOccurrence "Bearer ".data s.data)
    if t = "" then none else some t

/-- A Gmail message reference from `getRecentEmails`. -/
structure EmailMsg where
  id : String
deriving DecidableEq, Repr

/-- The fields of a fetched email that `processInbox` reads. -/
structure EmailData where
  id : String
  subject : String
deriving DecidableEq, Repr

/-- An `ActionItem` as produced by `aiService.validateAndEnhanceActions`
(`suggestedDate` already normalized by `validateDate`, an instant when
present). -/
structure ActionItem where
  id : String
  title : String
  description : Option String
  suggestedDate : Option Int
  priority : String
  itemType : String
  attendees : Option (List String)
deriving DecidableEq, Repr

/-- One processed email of the `items` array of `processInbox`. -/
structure ProcessedItem where
  email : EmailData
  summary : String
  actions : List ActionItem
deriving DecidableEq, Repr

/-- A `CalendarEventDraft` built by `processInbox` step 4 (times are
instants; the source carries them as ISO strings). -/
structure Draft where
  title : String
  description : String
  startTime : Int
  endTime : Int
  attendees : List String
deriving DecidableEq, Repr

/-- The draft builder of `processInbox` lines 96-109: `startTime` is
the action's `suggestedDate` when present, else `now + 24h`;
`endTime` is `suggestedDate + 1h` when present, else `now + 25h`;
`attendees` defaults to `[]`. -/
def buildDraft (now : Int) (summary : String) (subject : String)
    (a : ActionItem) : Draft :=
  { title := a.title
    description := summary ++ "\n\nOriginal Email: " ++ subject
    startTime :=
      match a.suggestedDate with
      | some t => t
      | none => now + 24 * 60 * 60 * 1000
    endTime :=
      match a.suggestedDate with
      | some t => t + 60 * 60 * 1000
      | none => now + 25 * 60 * 60 * 1000
    attendees := a.attendees.getD [] }

/-- The raw `suggestedDate` value handed to `aiService.validateDate`:
absent (undefined, null, or not a string), a string `Date` cannot
parse, or a string parsing to the instant `t`. -/
inductive JsDateRaw where
  | missing : JsDateRaw
  | unparseable (s : String) : JsDateRaw
  | parsed (t : Int) : JsDateRaw
deriving DecidableEq, Repr

/-- `aiService.validateDate` (aiService.ts lines 217-231): a missing or
unparseable date yields `undefined`; a parsed date strictly before
`now` yields `undefined`; otherwise the parsed instant is kept
(re-rendered as ISO in the source). -/
def validateDate (date : JsDateRaw) (now : Int) : Option Int :=
  match date with
  | .missing => none
  | .unparseable _ => none
  | .parsed t => if t < now then none else some t

/-- External collaborators of `processInbox`, as outcome oracles:
Gmail list/fetch, the two LLM calls, the single
`descopeService.requestDelegatedToken` result, and Agent B's
`create-events` endpoint. -/
structure InboxEnv where
  getRecentEmails : Nat → List EmailMsg
  getEmailContent : String → Except String EmailData
  summarizeEmail : EmailData → Except String String
  extractActionItems : EmailData → Except String (List ActionItem)
  requestDelegatedToken : Option String
  callAgentB : List Draft → Except String (List AgentB.CalendarEvent)

/-- The body of one iteration of the per-message loop of `processInbox`
(lines 56-74): fetch the content, summarize, extract actions; the
first thrown error aborts this message only. -/
def processOne (env : InboxEnv) (m : EmailMsg) : Except String ProcessedItem :=
  match env.getEmailContent m.id with
  | .error e => .error e
  | .ok email =>
    match env.summarizeEmail email with
    | .error e => .error e
    | .ok summary =>
      match env.extractActionItems email with
      | .error e => .error e
      | .ok actions => .ok ⟨email, summary, actions⟩

/-- The per-message loop of `processInbox`: successes into `items`,
failures into `errors` (pairs `(emailId, message)`), in order. -/
def processMessages (env : InboxEnv) :
    List EmailMsg → List ProcessedItem × List (String × String)
  | [] => ([], [])
  | m :: rest =>
    let r := processMessages env rest
    match processOne env m with
    | .ok item => (item :: r.1, r.2)
    | .error e => (r.1, (m.id, e) :: r.2)

/-- One entry of the `summaries` array of the response (priority and
sentiment are the hard-coded placeholders of lines 139-140). -/
structure EmailSummary where
  id : String
  summary : String
  actionItems : List ActionItem
  priority : String
  sentiment : String
deriving DecidableEq, Repr

/-- The summary entry built from a processed item. -/
def mkSummary (item : ProcessedItem) : EmailSummary :=
  { id := item.email.id
    summary := item.summary
    actionItems := item.actions
    priority := "medium"
    sentiment := "neutral" }

/-- The `ProcessEmailsResponse` body. -/
structure ProcessEmailsResponse where
  processed : Nat
  summaries : List EmailSummary
  eventsCreated : List AgentB.CalendarEvent
  errors : List (String × String)
deriving DecidableEq, Repr

/-- Outcome of `processInbox` on the wire: the success `res.json`
(status 200) or an `AppError` surfaced by the error handler. -/
inductive InboxOutcome where
  | ok (resp : ProcessEmailsResponse) : InboxOutcome
  | appError (status : Nat) (code : String) : InboxOutcome
deriving DecidableEq, Repr

/-- Which downstream calls a `processInbox` run issued: whether Gmail
was asked for messages, whether the delegated-token request was made,
the `create-events` calls sent to Agent B, and how many fetched
messages the per-email loop iterated over. -/
structure InboxTrace where
  gmailFetched : Bool
  delegationRequested : Bool
  agentBCalls : List (List Draft)
  emailsProcessed : Nat
deriving DecidableEq, Repr

/-- The `processInbox` controller (emailController, lines 14-160):
Joi validation failure → 400 `VALIDATION_ERROR` before any downstream
call; missing bearer token → 401 `MISSING_TOKEN`; then Gmail fetch and
the sequential per-message loop; a falsy delegated token → 403
`DELEGATION_FAILED` with no Agent B call; otherwise one draft per
action item is built and, when there is at least one draft, a single
batch call goes to Agent B whose failure is appended to `errors`
(id `"calendar-creation"`) while the response stays 200. -/
def processInbox (now : Int) (maxResults : Option Rat)
    (authHeader : Option String) (env : InboxEnv) :
    InboxOutcome × InboxTrace :=
  match validateProcessEmailsRequest maxResults with
  | .error _ => (.appError 400 "VALIDATION_ERROR", ⟨false, false, [], 0⟩)
  | .ok mr =>
    match bearerToken authHeader with
    | none => (.appError 401 "MISSING_TOKEN", ⟨false, false, [], 0⟩)
    | some _jwt =>
      let messages := env.getRecentEmails mr
      let pr := processMessages env messages
      let items := pr.1
      let errors0 := pr.2
      match env.requestDelegatedToken with
      | none =>
        (.appError 403 "DELEGATION_FAILED", ⟨true, true, [], messages.length⟩)
      | some _tok =>
        let eventsToCreate :=
          items.flatMap (fun item =>
            item.actions.map (buildDraft now item.summary item.email.subject))
        if 0 < eventsToCreate.length then
          match env.callAgentB eventsToCreate with
          | .ok created =>
            (.ok { processed := items.length
                   summaries := items.map mkSummary
                   eventsCreated := created
                   errors := errors0 },
             ⟨true, true, [eventsToCreate], messages.length⟩)
          | .error m =>
            (.ok { processed := items.length
                   summaries := items.map mkSummary
                   eventsCreated := []
                   errors := errors0 ++ [("calendar-creation", m)] },
             ⟨true, true, [eventsToCreate], messages.length⟩)
        else
          (.ok { processed := items.length
                 summaries := items.map mkSummary
                 eventsCreated := []
                 errors := errors0 },
           ⟨true, true, [], messages.length⟩)

/-- A concrete environment used to evaluate the theorems: no emails in
the inbox, and a credential provider answering with `tok`. -/
def sampleEnv (tok : Option String) : InboxEnv :=
  { getRecentEmails := fun _ => []
    getEmailContent := fun i => .ok ⟨i, "a subject"⟩
    summarizeEmail := fun _ => .ok "a summary"
    extractActionItems := fun _ => .ok []
    requestDelegatedToken := tok
    callAgentB := fun _ => .ok [] }

end AgentA

namespace AgentB

/-- Each loop iteration contributes exactly one entry, to `created` or
to `errors`. -/
theorem processDrafts_length
    (create : CreateEventRequest → Except String CalendarEvent) (now : Int) :
    ∀ ds : List EventInput,
      (processDrafts create now ds).created.length
        + (processDrafts create now ds).errors.length = ds.length := by
  intro ds
  induction ds with
  | nil => rfl
  | cons d rest ih =>
    unfold processDrafts
    cases h : create (enhanceEventData now d) with
    | ok e => simp only [h, List.length_cons]; omega
    | error m => simp only [h, List.length_cons]; omega

theorem batchOutcome_totalReq (n : Nat) (r : DraftResults) :
    (batchOutcome n r).totalReq = n := rfl

theorem batchOutcome_createdCount (n : Nat) (r : DraftResults) :
    (batchOutcome n r).createdCount = r.created.length := rfl

theorem batchOutcome_errCount (n : Nat) (r : DraftResults) :
    (batchOutcome n r).errCount = r.errors.length := by
  by_cases h : 0 < r.errors.length
  · simp [batchOutcome, CEOutcome.errCount, h]
  · simp only [batchOutcome, CEOutcome.errCount, if_neg h]
    omega

theorem batchOutcome_status_of_created_pos (n : Nat) (r : DraftResults)
    (h : 0 < r.created.length) : (batchOutcome n r).status = 200 := by
  have hcond : ¬ (0 < r.errors.length ∧ r.created.length = 0) := by omega
  unfold batchOutcome
  rw [if_neg hcond]
  rfl

theorem createEvents_ok (scopes : Option (List String))
    (events : List EventInput)
    (create : CreateEventRequest → Except String CalendarEvent) (now : Int) :
    createEvents scopes (Except.ok events) create now
      = if events.length = 0 then (CEOutcome.okEmpty, [])
        else if hasScope scopes "calendar.write" = false then
          (CEOutcome.err 403 "INSUFFICIENT_SCOPE", [])
        else
          (batchOutcome events.length (processDrafts create now events),
            (processDrafts create now events).calls) := rfl

/-- Claim C6: a `create-events` batch call with `events == []` responds
with status 200 and an empty `created` list, and issues no call to the
Calendar Gateway. -/
theorem createEvents_emptyBatch (scopes : Option (List String))
    (create : CreateEventRequest → Except String CalendarEvent) (now : Int) :
    createEvents scopes (Except.ok []) create now = (CEOutcome.okEmpty, []) ∧
    CEOutcome.okEmpty.status = 200 ∧
    CEOutcome.okEmpty.createdList = [] :=
  ⟨rfl, rfl, rfl⟩

/-- Claim C3: on an empty `events` list, `create-events` produces the
same 200 / `created == []` response for any two granted scope sets
(and any two gateway behaviours): the scope check is never reached on
the empty-batch path. -/
theorem createEvents_empty_scopeIndependent (s1 s2 : Option (List String))
    (c1 c2 : CreateEventRequest → Except String CalendarEvent) (n1 n2 : Int) :
    createEvents s1 (Except.ok []) c1 n1 = createEvents s2 (Except.ok []) c2 n2 ∧
    (createEvents s1 (Except.ok []) c1 n1).1.status = 200 ∧
    (createEvents s1 (Except.ok []) c1 n1).1.createdList = [] :=
  ⟨rfl, rfl, rfl⟩

/-- Claim C2: a non-empty `create-events` request whose granted scopes
do not contain the exact string "calendar.write" — whatever else they
contain — responds 403 `INSUFFICIENT_SCOPE` and issues no
`calendarService.createEvent` call. -/
theorem createEvents_scopeDenied (scopes : Option (List String))
    (events : List EventInput)
    (create : CreateEventRequest → Except String CalendarEvent) (now : Int)
    (hne : events ≠ [])
    (hs : hasScope scopes "calendar.write" = false) :
    createEvents scopes (Except.ok events) create now
      = (CEOutcome.err 403 "INSUFFICIENT_SCOPE", []) := by
  have hlen : ¬ events.length = 0 := fun h => hne (List.length_eq_zero.mp h)
  rw [createEvents_ok, if_neg hlen, if_pos hs]

theorem createEvents_scopeDenied_witness :
    createEvents (some ["calendar.read", "profile", "email"])
      (Except.ok [sampleEventA]) sampleCreate 0
      = (CEOutcome.err 403 "INSUFFICIENT_SCOPE", []) :=
  createEvents_scopeDenied _ _ _ _ (by decide) (by decide)

/-- Claim C9: a non-empty batch that passes the scope check reports
`totalRequested == events.length` and
`totalCreated + errors.length == totalRequested`: every draft yields
exactly one of a created event or an error entry, and one failure
never aborts the rest. -/
theorem createEvents_itemAccounting (scopes : Option (List String))
    (events : List EventInput)
    (create : CreateEventRequest → Except String CalendarEvent) (now : Int)
    (hne : events ≠ [])
    (hs : hasScope scopes "calendar.write" = true) :
    ((createEvents scopes (Except.ok events) create now).1).totalReq
      = events.length ∧
    ((createEvents scopes (Except.ok events) create now).1).createdCount
      + ((createEvents scopes (Except.ok events) create now).1).errCount
      = ((createEvents scopes (Except.ok events) create now).1).totalReq := by
  have hlen : ¬ events.length = 0 := fun h => hne (List.length_eq_zero.mp h)
  have hs' : ¬ hasScope scopes "calendar.write" = false := by simp [hs]
  have hcount := processDrafts_length create now events
  rw [createEvents_ok, if_neg hlen, if_neg hs']
  refine ⟨batchOutcome_totalReq _ _, ?_⟩
  rw [batchOutcome_totalReq, batchOutcome_createdCount, batchOutcome_errCount]
  exact hcount

theorem createEvents_itemAccounting_witness :
    ((createEvents (some ["calendar.write"])
        (Except.ok [sampleEventA, sampleEventB]) sampleCreate 0).1).totalReq
      = [sampleEventA, sampleEventB].length ∧
    ((createEvents (some ["calendar.write"])
        (Except.ok [sampleEventA, sampleEventB]) sampleCreate 0).1).createdCount
      + ((createEvents (some ["calendar.write"])
        (Except.ok [sampleEventA, sampleEventB]) sampleCreate 0).1).errCount
      = ((createEvents (some ["calendar.write"])
        (Except.ok [sampleEventA, sampleEventB]) sampleCreate 0).1).totalReq :=
  createEvents_itemAccounting _ _ _ _ (by decide) (by decide)

/-- Claim C1, counterexample: a concrete batch of 2 drafts of which
exactly 1 succeeds (partial success, 0 < k < N) gets HTTP status 200,
not 207 as claimed — `createEvents` line 101 only returns 207 when
`errors.length > 0 && createdEvents.length === 0`, i.e. when every
draft fails. -/
theorem createEvents_partial207_cex :
    ((createEvents (some ["calendar.write"])
        (Except.ok [sampleEventA, sampleEventB]) sampleCreate 0).1).totalReq = 2 ∧
    ((createEvents (some ["calendar.write"])
        (Except.ok [sampleEventA, sampleEventB]) sampleCreate 0).1).createdCount = 1 ∧
    ((createEvents (some ["calendar.write"])
        (Except.ok [sampleEventA, sampleEventB]) sampleCreate 0).1).errCount = 1 ∧
    ((createEvents (some ["calendar.write"])
        (Except.ok [sampleEventA, sampleEventB]) sampleCreate 0).1).status = 200 ∧
    ¬ ((createEvents (some ["calendar.write"])
        (Except.ok [sampleEventA, sampleEventB]) sampleCreate 0).1).status = 207 := by
  decide

/-- Claim C1, amended: on a batch of N drafts of which k succeed with
0 < k < N, the response status is 200 (status 207 occurs only when no
draft succeeds) and the errors list has length N - k. -/
theorem createEvents_partialSuccess (scopes : Option (List String))
    (events : List EventInput)
    (create : CreateEventRequest → Except String CalendarEvent) (now : Int)
    (hs : hasScope scopes "calendar.write" = true)
    (hk : 0 < (processDrafts create now events).created.length)
    (hkN : (processDrafts create now events).created.length < events.length) :
    ((createEvents scopes (Except.ok events) create now).1).status = 200 ∧
    ((createEvents scopes (Except.ok events) create now).1).errCount
      = events.length - (processDrafts create now events).created.length := by
  have hlen : ¬ events.length = 0 := by omega
  have hs' : ¬ hasScope scopes "calendar.write" = false := by simp [hs]
  have hcount := processDrafts_length create now events
  rw [createEvents_ok, if_neg hlen, if_neg hs']
  refine ⟨batchOutcome_status_of_created_pos _ _ hk, ?_⟩
  rw [batchOutcome_errCount]
  omega

theorem createEvents_partialSuccess_witness :
    ((createEvents (some ["calendar.write"])
        (Except.ok [sampleEventA, sampleEventB]) sampleCreate 0).1).status = 200 ∧
    ((createEvents (some ["calendar.write"])
        (Except.ok [sampleEventA, sampleEventB]) sampleCreate 0).1).errCount
      = [sampleEventA, sampleEventB].length
        - (processDrafts sampleCreate 0 [sampleEventA, sampleEventB]).created.length :=
  createEvents_partialSuccess _ _ _ _ (by decide) (by decide) (by decide)

/-- Claim C7: with a configured calendar client, a provider error on
the delete path whose message does not contain "Not Found" surfaces as
a 500 `CALENDAR_DELETE_FAILED` (no mock fallback on the destructive
path), while a "Not Found" error makes the service return `false` and
the controller answer 404 `EVENT_DELETE_FAILED`. -/
theorem deleteEvent_errorTaxonomy (scopes : Option (List String))
    (eventId : String) (e : JsError)
    (hid : eventId ≠ "")
    (hs : hasScope scopes "calendar.write" = true)
    (he : e.isError = true) :
    (strContains e.msg "Not Found" = false →
      ctrlDeleteEvent scopes eventId true (Except.error e)
        = CtrlOutcome.err 500 "CALENDAR_DELETE_FAILED") ∧
    (strContains e.msg "Not Found" = true →
      svcDeleteEvent true (Except.error e) = Except.ok false ∧
      ctrlDeleteEvent scopes eventId true (Except.error e)
        = CtrlOutcome.err 404 "EVENT_DELETE_FAILED") := by
  have hs' : ¬ hasScope scopes "calendar.write" = false := by simp [hs]
  constructor
  · intro hnf
    unfold ctrlDeleteEvent
    rw [if_neg hid, if_neg hs']
    have hsvc : svcDeleteEvent true (Except.error e)
        = Except.error ⟨"Failed to delete calendar event", 500, "CALENDAR_DELETE_FAILED"⟩ := by
      unfold svcDeleteEvent
      simp [he, hnf]
    rw [hsvc]
  · intro hnf
    have hsvc : svcDeleteEvent true (Except.error e) = Except.ok false := by
      unfold svcDeleteEvent
      simp [he, hnf]
    refine ⟨hsvc, ?_⟩
    unfold ctrlDeleteEvent
    rw [if_neg hid, if_neg hs', hsvc]

theorem deleteEvent_errorTaxonomy_witness :
    ctrlDeleteEvent (some ["calendar.write"]) "evt1" true
      (Except.error ⟨true, "backend exploded"⟩)
      = CtrlOutcome.err 500 "CALENDAR_DELETE_FAILED" ∧
    ctrlDeleteEvent (some ["calendar.write"]) "evt1" true
      (Except.error ⟨true, "Requested entity was Not Found"⟩)
      = CtrlOutcome.err 404 "EVENT_DELETE_FAILED" :=
  ⟨(deleteEvent_errorTaxonomy _ _ _ (by decide) (by decide) rfl).1 (by decide),
   ((deleteEvent_errorTaxonomy _ _ _ (by decide) (by decide) rfl).2 (by decide)).2⟩

/-- Claim C10: in mock mode (no calendar client configured),
`getEvent` returns the non-null mock event for every id, so the
controller's 404 `EVENT_NOT_FOUND` branch is unreachable; likewise
`deleteEvent` returns `true` for every id, so the controller's 404
`EVENT_DELETE_FAILED` branch is unreachable. -/
theorem mockMode_404_unreachable (scopes : Option (List String))
    (eventId : String) (now : Int)
    (p : Except JsError (Option CalendarEvent)) (pd : Except JsError Unit) :
    svcGetEvent false now eventId p = some (getMockEvent now eventId) ∧
    ctrlGetEvent scopes eventId false now p
      ≠ CtrlOutcome.err 404 "EVENT_NOT_FOUND" ∧
    svcDeleteEvent false pd = Except.ok true ∧
    ctrlDeleteEvent scopes eventId false pd
      ≠ CtrlOutcome.err 404 "EVENT_DELETE_FAILED" := by
  refine ⟨rfl, ?_, rfl, ?_⟩
  · unfold ctrlGetEvent
    by_cases hid : eventId = ""
    · rw [if_pos hid]; decide
    · rw [if_neg hid]
      by_cases hsc : hasScope scopes "calendar.read" = false
      · rw [if_pos hsc]; decide
      · rw [if_neg hsc]
        rw [show svcGetEvent false now eventId p
            = some (getMockEvent now eventId) from rfl]
        simp
  · unfold ctrlDeleteEvent
    by_cases hid : eventId = ""
    · rw [if_pos hid]; decide
    · rw [if_neg hid]
      by_cases hsc : hasScope scopes "calendar.write" = false
      · rw [if_pos hsc]; decide
      · rw [if_neg hsc]
        rw [show svcDeleteEvent false pd = Except.ok true from rfl]
        simp

end AgentB

namespace AgentA

/-- A non-integer or out-of-range `maxResults` makes the Joi schema
report a validation error. -/
theorem validateProcessEmailsRequest_some (q : Rat) :
    validateProcessEmailsRequest (some q)
      = if q.den ≠ 1 then Except.error "maxResults must be an integer"
        else if q.num < 1 then Except.error "maxResults must be greater than or equal to 1"
        else if 50 < q.num then Except.error "maxResults must be less than or equal to 50"
        else Except.ok q.num.toNat := rfl

theorem validate_error_of_bad (q : Rat)
    (hbad : q.den ≠ 1 ∨ q.num < 1 ∨ 50 < q.num) :
    ∃ m, validateProcessEmailsRequest (some q) = Except.error m := by
  rw [validateProcessEmailsRequest_some]
  by_cases h1 : q.den ≠ 1
  · rw [if_pos h1]; exact ⟨_, rfl⟩
  · rw [if_neg h1]
    by_cases h2 : q.num < 1
    · rw [if_pos h2]; exact ⟨_, rfl⟩
    · rw [if_neg h2]
      by_cases h3 : 50 < q.num
      · rw [if_pos h3]; exact ⟨_, rfl⟩
      · exfalso
        rcases hbad with h | h | h
        · exact h1 h
        · exact h2 h
        · exact h3 h

/-- Claim C8: `maxResults` must be an integer between 1 and 50
(default 5 when absent); any non-integer or out-of-range number is
rejected with 400 `VALIDATION_ERROR` before any downstream call — no
mail fetch, no per-email processing, no delegation request, no Agent B
call. -/
theorem processEmails_maxResultsValidation (q : Rat) (now : Int)
    (authHeader : Option String) (env : InboxEnv)
    (hbad : q.den ≠ 1 ∨ q.num < 1 ∨ 50 < q.num) :
    validateProcessEmailsRequest none = Except.ok 5 ∧
    processInbox now (some q) authHeader env
      = (InboxOutcome.appError 400 "VALIDATION_ERROR", ⟨false, false, [], 0⟩) ∧
    (∀ p : Rat, p.den = 1 → 1 ≤ p.num → p.num ≤ 50 →
      validateProcessEmailsRequest (some p) = Except.ok p.num.toNat) := by
  refine ⟨rfl, ?_, ?_⟩
  · obtain ⟨m, hm⟩ := validate_error_of_bad q hbad
    unfold processInbox
    rw [hm]
  · intro p h1 h2 h3
    rw [validateProcessEmailsRequest_some,
      if_neg (fun hne : p.den ≠ 1 => hne h1), if_neg (not_lt.mpr h2),
      if_neg (not_lt.mpr h3)]

theorem processEmails_maxResultsValidation_witness :
    processInbox 0 (some 51) none (sampleEnv (some "tok"))
      = (InboxOutcome.appError 400 "VALIDATION_ERROR", ⟨false, false, [], 0⟩) :=
  (processEmails_maxResultsValidation 51 0 none (sampleEnv (some "tok"))
    (Or.inr (Or.inr (by norm_num)))).2.1

/-- Claim C4: when the credential provider yields no usable delegated
token, `processInbox` fails as a whole with 403 `DELEGATION_FAILED`
and no `create-events` call is made to Agent B. -/
theorem processInbox_delegationFailed (now : Int) (maxResults : Option Rat)
    (authHeader : Option String) (env : InboxEnv) (n : Nat) (jwt : String)
    (hv : validateProcessEmailsRequest maxResults = Except.ok n)
    (ha : bearerToken authHeader = some jwt)
    (ht : env.requestDelegatedToken = none) :
    (processInbox now maxResults authHeader env).1
      = InboxOutcome.appError 403 "DELEGATION_FAILED" ∧
    (processInbox now maxResults authHeader env).2.agentBCalls = [] := by
  unfold processInbox
  rw [hv, ha, ht]
  exact ⟨rfl, rfl⟩

theorem processInbox_delegationFailed_witness :
    (processInbox 0 none (some "Bearer abc") (sampleEnv none)).1
      = InboxOutcome.appError 403 "DELEGATION_FAILED" ∧
    (processInbox 0 none (some "Bearer abc") (sampleEnv none)).2.agentBCalls = [] :=
  processInbox_delegationFailed 0 none (some "Bearer abc") (sampleEnv none)
    5 "abc" rfl (by decide) rfl

/-- Claim C5: for every action item, the draft's `startTime` is the
suggested date when `validateDate` kept it (a parseable date not in
the past), and `now + 24h` when validation normalized it to absent;
in every case `endTime = startTime + 1h`. -/
theorem draftTimes (raw : JsDateRaw) (nowA nowO : Int)
    (id title priority itemType : String) (descr : Option String)
    (attendees : Option (List String)) (summary subject : String) :
    (∀ t, raw = JsDateRaw.parsed t → nowA ≤ t →
      (buildDraft nowO summary subject
        ⟨id, title, descr, validateDate raw nowA, priority, itemType,
          attendees⟩).startTime = t) ∧
    (validateDate raw nowA = none →
      (buildDraft nowO summary subject
        ⟨id, title, descr, validateDate raw nowA, priority, itemType,
          attendees⟩).startTime = nowO + 24 * 60 * 60 * 1000) ∧
    (buildDraft nowO summary subject
      ⟨id, title, descr, validateDate raw nowA, priority, itemType,
        attendees⟩).endTime
      = (buildDraft nowO summary subject
        ⟨id, title, descr, validateDate raw nowA, priority, itemType,
          attendees⟩).startTime + 60 * 60 * 1000 := by
  refine ⟨?_, ?_, ?_⟩
  · intro t hraw hle
    subst hraw
    simp [buildDraft, validateDate, if_neg (not_lt.mpr hle)]
  · intro hnone
    simp [buildDraft, hnone]
  · cases hsd : validateDate raw nowA with
    | none => simp [buildDraft, hsd]; omega
    | some t => simp [buildDraft, hsd]

theorem draftTimes_witness :
    (buildDraft 0 "a summary" "a subject"
      ⟨"i1", "t1", none, validateDate (JsDateRaw.parsed 5000000) 400,
        "medium", "meeting", none⟩).startTime = 5000000 ∧
    (buildDraft 0 "a summary" "a subject"
      ⟨"i1", "t1", none, validateDate (JsDateRaw.parsed 5000000) 400,
        "medium", "meeting", none⟩).endTime
      = (buildDraft 0 "a summary" "a subject"
        ⟨"i1", "t1", none, validateDate (JsDateRaw.parsed 5000000) 400,
          "medium", "meeting", none⟩).startTime + 60 * 60 * 1000 :=
  ⟨(draftTimes (JsDateRaw.parsed 5000000) 400 0 "i1" "t1" "medium" "meeting"
      none none "a summary" "a subject").1 5000000 rfl (by decide),
   (draftTimes (JsDateRaw.parsed 5000000) 400 0 "i1" "t1" "medium" "meeting"
      none none "a summary" "a subject").2.2⟩

end AgentA

end Promptly
